import Mathlib

set_option autoImplicit false

namespace Hago

/-! Shallow embedding of the WebSocket RPC layer of `websocket.go`:
the correlation registry (`pending` map keyed by `int64` message IDs),
the background reader/demultiplexer, `sendCommand`, the authentication
handshake, connection establishment, and WebSocket URL derivation. -/

/-- Model of a JSON value, as produced by `json.Marshal` on an arbitrary
`any` command and consumed by `json.Unmarshal`. -/
inductive Json where
  | null : Json
  | bool (b : Bool) : Json
  | num (n : Int) : Json
  | str (s : String) : Json
  | arr (xs : List Json) : Json
  | obj (fields : List (String × Json)) : Json
deriving Repr

/-- The field list of a JSON object; `none` for any non-object value. -/
def jsonObjFields : Json → Option (List (String × Json))
  | .obj fs => some fs
  | _ => none

/-- Result of `json.Unmarshal(data, &cmdMap)` with `cmdMap : map[string]any`:
a JSON object fills the map; JSON `null` succeeds too but sets the map to
`nil`; every other JSON value is an unmarshal error. -/
inductive UnmarshalMap where
  | obj (fields : List (String × Json)) : UnmarshalMap
  | nilMap : UnmarshalMap
  | err : UnmarshalMap
deriving Repr

/-- `json.Unmarshal(data, &cmdMap)` on the marshalled command: objects
fill the map, `null` sets it to `nil` without error, anything else fails. -/
def unmarshalMap : Json → UnmarshalMap
  | .obj fs => .obj fs
  | .null => .nilMap
  | _ => .err

/-- Go map update `m[k] = v`: any existing binding for `k` is replaced. -/
def setField (fs : List (String × Json)) (k : String) (v : Json) :
    List (String × Json) :=
  (k, v) :: fs.filter (fun p => p.1 ≠ k)

/-- Go map read `m[k]` on the field list of an object. -/
def fieldVal (fs : List (String × Json)) (k : String) : Option Json :=
  match fs with
  | [] => none
  | (k', v) :: rest => if k' = k then some v else fieldVal rest k

/-- The `wsError` struct: a structured error from Home Assistant. -/
structure WsErrorInfo where
  code : String
  message : String
deriving Repr, DecidableEq

/-- The `wsResponse` struct: an inbound message from Home Assistant.
`result` stands for the opaque `json.RawMessage` payload. -/
structure WsResponse where
  id : Int
  type : String
  success : Bool
  result : Json
  error : Option WsErrorInfo
  haVersion : String
  message : String
deriving Repr

/-! ### The `msgID` counter (`atomic.Int64`) -/

/-- Two's-complement wrap-around of Go's signed 64-bit integers. -/
def int64wrap (x : Int) : Int := (x + 2 ^ 63) % 2 ^ 64 - 2 ^ 63

/-- The value returned by `ws.msgID.Add(1)`: the incremented counter,
with `int64` overflow semantics. -/
def nextID (c : Int) : Int := int64wrap (c + 1)

/-- The counter value after `n` calls of `nextID` on a fresh session
(`atomic.Int64` starts at its zero value).  The ID assigned to the `k`-th
call on the session is `counterAfter k`. -/
def counterAfter : Nat → Int
  | 0 => 0
  | n + 1 => nextID (counterAfter n)

/-! ### The pending-call registry

`pending : map[int64]chan *wsResponse` is modelled as an association list
from IDs to waiter tokens (a `Nat` naming the caller's channel). -/

/-- Waiter registered for an ID, modelling the map read `ws.pending[id]`. -/
def lookupW (pending : List (Int × Nat)) (id : Int) : Option Nat :=
  match pending with
  | [] => none
  | (k, w) :: rest => if k = id then some w else lookupW rest id

/-- Map removal `delete(ws.pending, id)`. -/
def eraseW (pending : List (Int × Nat)) (id : Int) : List (Int × Nat) :=
  pending.filter (fun p => p.1 ≠ id)

/-- One iteration of the reader's dispatch block: a message with nonzero
`id` is handed to the waiter registered for that `id` (if any), and the
entry is deleted; all other messages are dropped. Returns the delivery
made (waiter token paired with the response) and the updated registry. -/
def dispatch (pending : List (Int × Nat)) (r : WsResponse) :
    Option (Nat × WsResponse) × List (Int × Nat) :=
  if r.id ≠ 0 then
    match lookupW pending r.id with
    | some w => (some (w, r), eraseW pending r.id)
    | none => (none, pending)
  else
    (none, pending)

/-- The reader loop over the successfully read inbound messages, in arrival
order, threading the registry; returns all deliveries made and the final
registry.  (The loop ends when `ReadJSON` fails; see `onReaderExit`.) -/
def readerRun (pending : List (Int × Nat)) :
    List WsResponse → List (Nat × WsResponse) × List (Int × Nat)
  | [] => ([], pending)
  | r :: rest =>
    let step := dispatch pending r
    let tail := readerRun step.2 rest
    (match step.1 with
     | some d => d :: tail.1
     | none => tail.1, tail.2)

/-! ### `sendCommand` -/

/-- Outcome of `sendCommand` as seen by the caller. `ctxErr e` is the
caller's own `ctx.Err()` returned unwrapped; `wsError` is the
`*WebSocketError` built from a structured error; `failure` is any
`fmt.Errorf`-style error; `panicked` is a runtime panic propagating out
of `sendCommand` (deferred functions still run while panicking). -/
inductive CallResult where
  | ok (r : WsResponse) : CallResult
  | wsError (code message : String) : CallResult
  | ctxErr (e : String) : CallResult
  | failure (msg : String) : CallResult
  | panicked (msg : String) : CallResult
deriving Repr

/-- Which of the three `select` branches resolves the wait: the caller's
context is done, the session's `done` channel is closed, or the waiter
channel delivers a response. -/
inductive WaitOutcome where
  | ctxDone (ctxError : String) : WaitOutcome
  | sessionClosed : WaitOutcome
  | response (r : WsResponse) : WaitOutcome
deriving Repr

/-- Environment of one `sendCommand` run: whether `conn.WriteJSON` fails,
and how the wait resolves if the write succeeds. -/
structure SendEnv where
  writeErr : Option String
  outcome : WaitOutcome
deriving Repr

/-- Mutable state of a `wsConn` relevant to `sendCommand`: the `msgID`
counter and the pending registry. -/
structure WsState where
  msgID : Int
  pending : List (Int × Nat)
deriving Repr, DecidableEq

/-- What one `sendCommand` run produced: the caller-visible result, the
messages successfully written on the connection, and the caller's command
object as it stands when `sendCommand` returns. -/
structure SendOut where
  result : CallResult
  wrote : List Json
  cmdAfter : Json
deriving Repr

/-- The mapping applied when the waiter resolves with a response
(the `case resp := <-respCh` branch of `sendCommand`). -/
def resolveResponse (r : WsResponse) : CallResult :=
  match r.error with
  | some e => .wsError e.code e.message
  | none =>
    if !r.success && r.type == "result" then .failure "command failed"
    else .ok r

/-- `sendCommand`: assign the next ID, register a waiter, build a fresh
map from the command via marshal/unmarshal, inject the ID, write it, wait
for the outcome; the deferred `delete(ws.pending, id)` runs on every
return path, panic included.  A command marshalling to `null` leaves the
map `nil`, so `cmdMap["id"] = id` panics ("assignment to entry in nil
map").  `w` is the fresh waiter token for this call. -/
def sendCommand (st : WsState) (cmd : Json) (w : Nat) (env : SendEnv) :
    SendOut × WsState :=
  let id := nextID st.msgID
  let pending1 := (id, w) :: st.pending
  let pendingFinal := eraseW pending1 id
  match unmarshalMap cmd with
  | .err =>
    (⟨.failure "unmarshal command", [], cmd⟩, ⟨id, pendingFinal⟩)
  | .nilMap =>
    (⟨.panicked "assignment to entry in nil map", [], cmd⟩,
     ⟨id, pendingFinal⟩)
  | .obj fs =>
    let cmdMap := setField fs "id" (.num id)
    match env.writeErr with
    | some e =>
      (⟨.failure ("write command: " ++ e), [], cmd⟩, ⟨id, pendingFinal⟩)
    | none =>
      let res :=
        match env.outcome with
        | .ctxDone ce => CallResult.ctxErr ce
        | .sessionClosed => .failure "websocket connection closed"
        | .response r => resolveResponse r
      (⟨res, [Json.obj cmdMap], cmd⟩, ⟨id, pendingFinal⟩)

/-! ### WebSocket URL derivation (`buildWebSocketURL`) -/

/-- The parsed form of a base URL (`url.Parse` result): scheme, host
(including any port), and path. -/
structure Url where
  scheme : String
  host : String
  path : String
deriving Repr, DecidableEq

deriving instance DecidableEq for Except

/-- Rendering of a parsed URL back to a string (`u.String()`). -/
def urlString (u : Url) : String := u.scheme ++ "://" ++ u.host ++ u.path

/-- Strip an exact leading run of characters, or fail. -/
def stripPrefixCh : List Char → List Char → Option (List Char)
  | [], l => some l
  | _ :: _, [] => none
  | p :: ps, c :: cs => if p = c then stripPrefixCh ps cs else none

/-- Go `strings.TrimSuffix`: removes one occurrence of the suffix if the
string ends with it, else returns the string unchanged. -/
def trimSuffix (s suffix : String) : String :=
  match stripPrefixCh suffix.data.reverse s.data.reverse with
  | some r => String.mk r.reverse
  | none => s

/-- `buildWebSocketURL`: substitute the scheme (`http` to `ws`, `https`
to `wss`, anything else is an error), strip one trailing slash from the
path, append `/api/websocket`, render. -/
def buildWebSocketURL (u : Url) : Except String String :=
  match u.scheme with
  | "http" =>
    .ok (urlString ⟨"ws", u.host, trimSuffix u.path "/" ++ "/api/websocket"⟩)
  | "https" =>
    .ok (urlString ⟨"wss", u.host, trimSuffix u.path "/" ++ "/api/websocket"⟩)
  | s => .error ("unsupported scheme: " ++ s)

/-- Split a character list at the first occurrence of `://`. -/
def splitScheme : List Char → Option (List Char × List Char)
  | [] => none
  | ':' :: '/' :: '/' :: rest => some ([], rest)
  | c :: rest =>
    match splitScheme rest with
    | some (a, b) => some (c :: a, b)
    | none => none

/-- Split a character list into the part before the first `/` and the
rest starting at that `/` (empty if there is no `/`). -/
def splitHost : List Char → List Char × List Char
  | [] => ([], [])
  | '/' :: rest => ([], '/' :: rest)
  | c :: rest =>
    let hp := splitHost rest
    (c :: hp.1, hp.2)

/-- Minimal parser for base URLs of the shape `scheme://host[/path]`,
matching how `url.Parse` splits the examples used in this development. -/
def parseUrl (s : String) : Option Url :=
  match splitScheme s.data with
  | some (sch, rest) =>
    let hp := splitHost rest
    some ⟨String.mk sch, String.mk hp.1, String.mk hp.2⟩
  | none => none

/-! ### Authentication handshake (`authenticate`) -/

/-- The result of one `conn.ReadJSON` call: an error or a message. -/
inductive ReadResult where
  | err (e : String) : ReadResult
  | msg (m : WsResponse) : ReadResult
deriving Repr

/-- The `wsAuthMessage` struct sent during the handshake. -/
structure WsAuthMessage where
  type : String
  accessToken : String
deriving Repr, DecidableEq

/-- `authenticate`: read one message which must be `auth_required`, send
the credential message, read the second message and decide the outcome.
Returns the handshake result together with the auth messages written.
`read1`/`read2` are the two reads; `writeErr` is a failure of the
credential write, if any. -/
def authenticate (token : String) (read1 : ReadResult)
    (writeErr : Option String) (read2 : ReadResult) :
    Except String Unit × List WsAuthMessage :=
  match read1 with
  | .err e => (.error ("read auth_required: " ++ e), [])
  | .msg m =>
    if m.type ≠ "auth_required" then
      (.error ("expected auth_required, got " ++ m.type), [])
    else
      match writeErr with
      | some e => (.error ("write auth: " ++ e), [⟨"auth", token⟩])
      | none =>
        match read2 with
        | .err e => (.error ("read auth response: " ++ e), [⟨"auth", token⟩])
        | .msg m2 =>
          if m2.type = "auth_ok" then (.ok (), [⟨"auth", token⟩])
          else if m2.type = "auth_invalid" then
            (.error ("auth failed: " ++
              (if m2.message = "" then "invalid authentication"
               else m2.message)), [⟨"auth", token⟩])
          else
            (.error ("unexpected auth response: " ++ m2.type),
             [⟨"auth", token⟩])

/-! ### Connection establishment (`connectWebSocket`) and reader exit -/

/-- The client-visible identity of one `wsConn`: `sid` tags the heap
identity of the connection object (each dialled connection is fresh),
`doneClosed` says whether its `done` channel has been closed. -/
structure Session where
  sid : Nat
  doneClosed : Bool
deriving Repr, DecidableEq

/-- The `Client` state touched by the WebSocket layer: the current
session reference `ws` (`nil` modelled as `none`), the parsed base URL,
and a counter supplying fresh session identities. -/
structure ClientState where
  ws : Option Session
  baseURL : Url
  nextSid : Nat
deriving Repr, DecidableEq

/-- Environment of one connect attempt: whether the dial fails, and the
reads/write of the handshake. -/
structure ConnectEnv where
  dialErr : Option String
  read1 : ReadResult
  writeAuthErr : Option String
  read2 : ReadResult
deriving Repr

/-- Observable effects of one `connectWebSocket` call. -/
structure ConnectOut where
  result : Except String Unit
  dialed : Bool
  connClosed : Bool
  readerStarted : Bool
deriving Repr

/-- The connect path taken when no live session exists: build the URL,
dial, authenticate; on auth failure close the fresh connection and
return the error without storing a session or starting a reader; on
success store the fresh session and start the reader. -/
def connectFresh (st : ClientState) (token : String) (env : ConnectEnv) :
    ConnectOut × ClientState :=
  match buildWebSocketURL st.baseURL with
  | .error e =>
    (⟨.error ("build websocket URL: " ++ e), false, false, false⟩, st)
  | .ok _ =>
    match env.dialErr with
    | some e => (⟨.error ("websocket dial: " ++ e), true, false, false⟩, st)
    | none =>
      match (authenticate token env.read1 env.writeAuthErr env.read2).1 with
      | .error e =>
        (⟨.error ("websocket auth: " ++ e), true, true, false⟩, st)
      | .ok _ =>
        (⟨.ok (), true, false, true⟩,
         { ws := some ⟨st.nextSid, false⟩, baseURL := st.baseURL,
           nextSid := st.nextSid + 1 })

/-- `connectWebSocket`: if a session exists and its `done` channel is not
closed, return at once; otherwise run the fresh-connect path. -/
def connectWebSocket (st : ClientState) (token : String) (env : ConnectEnv) :
    ConnectOut × ClientState :=
  match st.ws with
  | some s =>
    if s.doneClosed then connectFresh st token env
    else (⟨.ok (), false, false, false⟩, st)
  | none => connectFresh st token env

/-- Effect of the reader loop terminating on the client state: the
deferred `ws.close()` closes the session's `done` channel and the
connection; no code path writes the client's `ws` field. -/
def onReaderExit (st : ClientState) : ClientState :=
  match st.ws with
  | some s => { st with ws := some ⟨s.sid, true⟩ }
  | none => st



/-! ### Counter lemmas -/

theorem counterAfter_eq (n : Nat) : counterAfter n = int64wrap n := by
  induction n with
  | zero => simp [counterAfter, int64wrap]
  | succ k ih =>
    show nextID (counterAfter k) = int64wrap (k + 1)
    rw [ih]
    unfold nextID int64wrap
    push_cast
    omega

theorem int64wrap_small (n : Nat) (h : (n : Int) < 2 ^ 63) :
    int64wrap n = n := by
  unfold int64wrap
  omega

theorem counterAfter_lt (n m : Nat) (h : n < m) (hm : (m : Int) < 2 ^ 63) :
    counterAfter n < counterAfter m := by
  rw [counterAfter_eq, counterAfter_eq,
    int64wrap_small n (by push_cast at hm ⊢; omega), int64wrap_small m hm]
  exact_mod_cast h

/-! ### Registry lemmas -/

theorem lookupW_eraseW_self (l : List (Int × Nat)) (id : Int) :
    lookupW (eraseW l id) id = none := by
  induction l with
  | nil => rfl
  | cons a rest ih =>
    obtain ⟨ak, aw⟩ := a
    by_cases h : ak = id
    · simpa [eraseW, lookupW, h] using ih
    · simpa [eraseW, lookupW, h] using ih

theorem lookupW_eraseW_ne (l : List (Int × Nat)) (id k : Int) (h : k ≠ id) :
    lookupW (eraseW l id) k = lookupW l k := by
  induction l with
  | nil => rfl
  | cons a rest ih =>
    obtain ⟨ak, aw⟩ := a
    by_cases ha : ak = id
    · have hak : ak ≠ k := by rw [ha]; exact fun hk => h hk.symm
      have e1 : eraseW ((ak, aw) :: rest) id = eraseW rest id := by
        simp [eraseW, ha]
      have e2 : lookupW ((ak, aw) :: rest) k = lookupW rest k := by
        simp [lookupW, hak]
      rw [e1, e2]
      exact ih
    · have e1 : eraseW ((ak, aw) :: rest) id = (ak, aw) :: eraseW rest id := by
        simp [eraseW, ha]
      rw [e1]
      by_cases hk : ak = k
      · simp [lookupW, hk]
      · simp only [lookupW, if_neg hk]
        exact ih

theorem lookupW_eraseW_some (l : List (Int × Nat)) (id k : Int) (w : Nat)
    (h : lookupW (eraseW l id) k = some w) : lookupW l k = some w := by
  by_cases hk : k = id
  · rw [hk, lookupW_eraseW_self] at h
    exact absurd h (by simp)
  · rwa [lookupW_eraseW_ne l id k hk] at h

theorem lookupW_eq_none_iff (l : List (Int × Nat)) (k : Int) :
    lookupW l k = none ↔ k ∉ l.map Prod.fst := by
  induction l with
  | nil => simp [lookupW]
  | cons a rest ih =>
    obtain ⟨ak, aw⟩ := a
    by_cases h : ak = k
    · simp [lookupW, h]
    · simp only [lookupW, if_neg h, List.map_cons, List.mem_cons, ih]
      constructor
      · intro hn hc
        rcases hc with hc | hc
        · exact h hc.symm
        · exact hn hc
      · intro hn
        exact fun hc => hn (Or.inr hc)

theorem keys_eraseW_sublist (l : List (Int × Nat)) (id : Int) :
    ((eraseW l id).map Prod.fst).Sublist (l.map Prod.fst) :=
  List.Sublist.map Prod.fst (List.filter_sublist l)

theorem nodup_keys_eraseW (l : List (Int × Nat)) (id : Int)
    (h : (l.map Prod.fst).Nodup) : ((eraseW l id).map Prod.fst).Nodup :=
  h.sublist (keys_eraseW_sublist l id)

/-! ### Dispatch case lemmas -/

theorem dispatch_zero (p : List (Int × Nat)) (r : WsResponse) (h : r.id = 0) :
    dispatch p r = (none, p) := by
  simp [dispatch, h]

theorem dispatch_found (p : List (Int × Nat)) (r : WsResponse) (w : Nat)
    (h0 : r.id ≠ 0) (h : lookupW p r.id = some w) :
    dispatch p r = (some (w, r), eraseW p r.id) := by
  simp [dispatch, h0, h]

theorem dispatch_miss (p : List (Int × Nat)) (r : WsResponse)
    (h0 : r.id ≠ 0) (h : lookupW p r.id = none) :
    dispatch p r = (none, p) := by
  simp [dispatch, h0, h]

theorem readerRun_cons (p : List (Int × Nat)) (r : WsResponse)
    (rest : List WsResponse) :
    readerRun p (r :: rest) =
      ((match (dispatch p r).1 with
        | some d => d :: (readerRun (dispatch p r).2 rest).1
        | none => (readerRun (dispatch p r).2 rest).1),
       (readerRun (dispatch p r).2 rest).2) := rfl

theorem readerRun_cons_delivered (p p' : List (Int × Nat)) (r : WsResponse)
    (d : Nat × WsResponse) (rest : List WsResponse)
    (h : dispatch p r = (some d, p')) :
    readerRun p (r :: rest) =
      (d :: (readerRun p' rest).1, (readerRun p' rest).2) := by
  rw [readerRun_cons, h]

theorem readerRun_cons_skip (p p' : List (Int × Nat)) (r : WsResponse)
    (rest : List WsResponse) (h : dispatch p r = (none, p')) :
    readerRun p (r :: rest) = readerRun p' rest := by
  rw [readerRun_cons, h]

/-- Deliveries never invent waiters: every delivery made by the reader
pairs a response with the waiter registered for exactly that response ID
in the registry the run started from. -/
theorem readerRun_sound (msgs : List WsResponse) :
    ∀ (p : List (Int × Nat)), ∀ d ∈ (readerRun p msgs).1,
      lookupW p d.2.id = some d.1 := by
  induction msgs with
  | nil => intro p d hd; simp [readerRun] at hd
  | cons r rest ih =>
    intro p d hd
    by_cases h0 : r.id = 0
    · rw [readerRun_cons_skip p p r rest (dispatch_zero p r h0)] at hd
      exact ih p d hd
    · cases hl : lookupW p r.id with
      | none =>
        rw [readerRun_cons_skip p p r rest (dispatch_miss p r h0 hl)] at hd
        exact ih p d hd
      | some w =>
        rw [readerRun_cons_delivered p (eraseW p r.id) r (w, r) rest
          (dispatch_found p r w h0 hl)] at hd
        rcases List.mem_cons.mp hd with hd | hd
        · rw [hd]; exact hl
        · exact lookupW_eraseW_some p r.id d.2.id d.1 (ih (eraseW p r.id) d hd)

/-- Once an ID is absent from the registry, the reader never re-adds it. -/
theorem readerRun_none_stable (msgs : List WsResponse) :
    ∀ (p : List (Int × Nat)) (k : Int), lookupW p k = none →
      lookupW (readerRun p msgs).2 k = none := by
  induction msgs with
  | nil => intro p k h; exact h
  | cons r rest ih =>
    intro p k h
    by_cases h0 : r.id = 0
    · rw [readerRun_cons_skip p p r rest (dispatch_zero p r h0)]
      exact ih p k h
    · cases hl : lookupW p r.id with
      | none =>
        rw [readerRun_cons_skip p p r rest (dispatch_miss p r h0 hl)]
        exact ih p k h
      | some w =>
        rw [readerRun_cons_delivered p (eraseW p r.id) r (w, r) rest
          (dispatch_found p r w h0 hl)]
        refine ih (eraseW p r.id) k ?_
        by_cases hk : k = r.id
        · rw [hk]; exact lookupW_eraseW_self p r.id
        · rwa [lookupW_eraseW_ne p r.id k hk]

/-- Each registered entry is delivered to at most once: the IDs of the
delivered responses are pairwise distinct. -/
theorem readerRun_ids_nodup (msgs : List WsResponse) :
    ∀ (p : List (Int × Nat)),
      ((readerRun p msgs).1.map (fun d => d.2.id)).Nodup := by
  induction msgs with
  | nil => intro p; simp [readerRun]
  | cons r rest ih =>
    intro p
    by_cases h0 : r.id = 0
    · rw [readerRun_cons_skip p p r rest (dispatch_zero p r h0)]
      exact ih p
    · cases hl : lookupW p r.id with
      | none =>
        rw [readerRun_cons_skip p p r rest (dispatch_miss p r h0 hl)]
        exact ih p
      | some w =>
        rw [readerRun_cons_delivered p (eraseW p r.id) r (w, r) rest
          (dispatch_found p r w h0 hl)]
        simp only [List.map_cons, List.nodup_cons]
        refine ⟨?_, ih (eraseW p r.id)⟩
        intro hmem
        rcases List.mem_map.mp hmem with ⟨d, hd, hid⟩
        have hs := readerRun_sound rest (eraseW p r.id) d hd
        rw [hid, lookupW_eraseW_self] at hs
        exact absurd hs (by simp)

/-- A delivered entry is removed: after the run, the registry holds no
entry for any delivered ID. -/
theorem readerRun_delivered_removed (msgs : List WsResponse) :
    ∀ (p : List (Int × Nat)), ∀ d ∈ (readerRun p msgs).1,
      lookupW (readerRun p msgs).2 d.2.id = none := by
  induction msgs with
  | nil => intro p d hd; simp [readerRun] at hd
  | cons r rest ih =>
    intro p d hd
    by_cases h0 : r.id = 0
    · rw [readerRun_cons_skip p p r rest (dispatch_zero p r h0)] at hd ⊢
      exact ih p d hd
    · cases hl : lookupW p r.id with
      | none =>
        rw [readerRun_cons_skip p p r rest (dispatch_miss p r h0 hl)] at hd ⊢
        exact ih p d hd
      | some w =>
        rw [readerRun_cons_delivered p (eraseW p r.id) r (w, r) rest
          (dispatch_found p r w h0 hl)] at hd ⊢
        rcases List.mem_cons.mp hd with hd | hd
        · rw [hd]
          exact readerRun_none_stable rest (eraseW p r.id) r.id
            (lookupW_eraseW_self p r.id)
        · exact ih (eraseW p r.id) d hd

/-- Completeness: if a waiter is registered for `id` and a response with
that nonzero `id` is among the inbound messages (whose IDs are pairwise
distinct), that waiter receives that response. -/
theorem readerRun_complete (msgs : List WsResponse) :
    ∀ (p : List (Int × Nat)) (id : Int) (w : Nat) (r : WsResponse),
      lookupW p id = some w → r ∈ msgs → r.id = id → id ≠ 0 →
      (msgs.map WsResponse.id).Nodup → (w, r) ∈ (readerRun p msgs).1 := by
  induction msgs with
  | nil =>
    intro p id w r _ hmem _ _ _
    simp at hmem
  | cons m rest ih =>
    intro p id w r hreg hmem hid h0 hnd
    simp only [List.map_cons, List.nodup_cons] at hnd
    rcases List.mem_cons.mp hmem with hm | hm
    · subst hm
      rw [readerRun_cons_delivered p (eraseW p r.id) r (w, r) rest
        (dispatch_found p r w (hid ▸ h0) (hid ▸ hreg))]
      exact List.mem_cons_self _ _
    · have hmne : m.id ≠ id := by
        intro he
        exact hnd.1 (by
          rw [he, ← hid]
          exact List.mem_map.mpr ⟨r, hm, rfl⟩)
      by_cases h0m : m.id = 0
      · rw [readerRun_cons_skip p p m rest (dispatch_zero p m h0m)]
        exact ih p id w r hreg hm hid h0 hnd.2
      · cases hl : lookupW p m.id with
        | none =>
          rw [readerRun_cons_skip p p m rest (dispatch_miss p m h0m hl)]
          exact ih p id w r hreg hm hid h0 hnd.2
        | some w2 =>
          rw [readerRun_cons_delivered p (eraseW p m.id) m (w2, m) rest
            (dispatch_found p m w2 h0m hl)]
          have hreg2 : lookupW (eraseW p m.id) id = some w := by
            rw [lookupW_eraseW_ne p m.id id (fun he => hmne he.symm)]
            exact hreg
          exact List.mem_cons_of_mem _
            (ih (eraseW p m.id) id w r hreg2 hm hid h0 hnd.2)


/-! ### Helper lemmas on `sendCommand` -/

theorem eraseW_cons_self (p : List (Int × Nat)) (id : Int) (w : Nat) :
    eraseW ((id, w) :: p) id = eraseW p id := by
  simp [eraseW]

theorem unmarshalMap_of_fields (cmd : Json) (fs : List (String × Json))
    (h : jsonObjFields cmd = some fs) : unmarshalMap cmd = .obj fs := by
  cases cmd <;> simp [jsonObjFields] at h <;> simp [unmarshalMap, h]

theorem sendCommand_state (st : WsState) (cmd : Json) (w : Nat)
    (env : SendEnv) :
    (sendCommand st cmd w env).2 =
      ⟨nextID st.msgID,
       eraseW ((nextID st.msgID, w) :: st.pending) (nextID st.msgID)⟩ := by
  unfold sendCommand
  cases unmarshalMap cmd with
  | err => rfl
  | nilMap => rfl
  | obj fs =>
    cases henv : env.writeErr with
    | none => rfl
    | some e => rfl

theorem sendCommand_wait (st : WsState) (cmd : Json)
    (fs : List (String × Json)) (w : Nat) (outc : WaitOutcome)
    (hobj : jsonObjFields cmd = some fs) :
    (sendCommand st cmd w ⟨none, outc⟩).1.result =
      match outc with
      | .ctxDone ce => CallResult.ctxErr ce
      | .sessionClosed => .failure "websocket connection closed"
      | .response r => resolveResponse r := by
  unfold sendCommand
  rw [unmarshalMap_of_fields cmd fs hobj]

theorem dispatch_drop (p : List (Int × Nat)) (r : WsResponse)
    (h : lookupW p r.id = none) : dispatch p r = (none, p) := by
  by_cases h0 : r.id = 0
  · exact dispatch_zero p r h0
  · exact dispatch_miss p r h0 h

/-! ### Claims -/

/-- Claim C4: for every base URL, the derived WebSocket URL replaces
scheme `http` by `ws` and `https` by `wss`, strips a trailing slash from
the path and appends `/api/websocket`; any other scheme is an error; in
particular `http://localhost:8123/` derives to
`ws://localhost:8123/api/websocket` and `https://ha.example.com` to
`wss://ha.example.com/api/websocket`. -/
theorem claim_C4_url_derivation (u : Url) :
    (u.scheme = "http" →
      buildWebSocketURL u =
        .ok ("ws://" ++ u.host ++ (trimSuffix u.path "/" ++ "/api/websocket"))) ∧
    (u.scheme = "https" →
      buildWebSocketURL u =
        .ok ("wss://" ++ u.host ++ (trimSuffix u.path "/" ++ "/api/websocket"))) ∧
    (u.scheme ≠ "http" → u.scheme ≠ "https" →
      buildWebSocketURL u = .error ("unsupported scheme: " ++ u.scheme)) ∧
    (parseUrl "http://localhost:8123/").map buildWebSocketURL =
      some (.ok "ws://localhost:8123/api/websocket") ∧
    (parseUrl "https://ha.example.com").map buildWebSocketURL =
      some (.ok "wss://ha.example.com/api/websocket") := by
  obtain ⟨sch, host, path⟩ := u
  refine ⟨?_, ?_, ?_, by decide, by decide⟩
  · intro h
    simp only at h
    subst h
    simp [buildWebSocketURL, urlString]
  · intro h
    simp only at h
    subst h
    simp [buildWebSocketURL, urlString]
  · intro h1 h2
    simp only at h1 h2
    show buildWebSocketURL ⟨sch, host, path⟩ = _
    unfold buildWebSocketURL
    split <;> simp_all

/-- Claim C4 witness: the theorem applied at a concrete non-http scheme. -/
theorem claim_C4_url_derivation_witness :
    buildWebSocketURL ⟨"ftp", "ha.example.com", "/"⟩ =
      .error ("unsupported scheme: " ++ "ftp") :=
  (claim_C4_url_derivation ⟨"ftp", "ha.example.com", "/"⟩).2.2.1
    (by decide) (by decide)

/-- Claim C2 counterexample: IDs are drawn from an `int64` counter, which
wraps; the ID issued by call number `2 ^ 63` on one session is smaller
than the ID issued by the previous call, so "strictly greater than every
id previously issued" fails as stated. -/
theorem claim_C2_counterexample :
    (2 ^ 63 - 1 : Nat) < (2 ^ 63 : Nat) ∧
    counterAfter (2 ^ 63) < counterAfter (2 ^ 63 - 1) := by
  constructor
  · norm_num
  · rw [counterAfter_eq, counterAfter_eq]
    unfold int64wrap
    have h1 : ((2 ^ 63 : Nat) : Int) = 2 ^ 63 := by norm_num
    have h2 : ((2 ^ 63 - 1 : Nat) : Int) = 2 ^ 63 - 1 := by norm_num
    rw [h1, h2]
    norm_num

/-- Claim C2 (amended): as long as fewer than `2 ^ 63` IDs have been
issued on the session, each call of `nextID` (the `msgID.Add(1)` in
`sendCommand`, whose result also becomes the new counter value) returns
an ID strictly greater than every previously issued ID; hence a fresh ID
is never equal to any ID still registered in the pending map, so at most
one pending entry exists per ID. -/
theorem claim_C2_nextID_monotone (n m : Nat) (keys : List Int)
    (h : n < m) (hm : (m : Int) < 2 ^ 63)
    (hkeys : ∀ k ∈ keys, ∃ j, 1 ≤ j ∧ j ≤ n ∧ k = counterAfter j) :
    counterAfter n < counterAfter m ∧
    counterAfter m ∉ keys ∧
    ∀ (st : WsState) (cmd : Json) (w : Nat) (env : SendEnv),
      (sendCommand st cmd w env).2.msgID = nextID st.msgID := by
  refine ⟨counterAfter_lt n m h hm, ?_, ?_⟩
  · intro hmem
    rcases hkeys _ hmem with ⟨j, _, hj2, hj3⟩
    have : counterAfter j < counterAfter m :=
      counterAfter_lt j m (lt_of_le_of_lt hj2 h) hm
    rw [← hj3] at this
    exact absurd rfl (ne_of_gt this)
  · intro st cmd w env
    rw [sendCommand_state]

/-- Claim C2 witness: the amended theorem at call numbers 2 and 5 with a
pending map whose keys were issued by calls 1 and 2. -/
theorem claim_C2_nextID_monotone_witness :
    counterAfter 2 < counterAfter 5 ∧
    counterAfter 5 ∉ [counterAfter 1, counterAfter 2] ∧
    ∀ (st : WsState) (cmd : Json) (w : Nat) (env : SendEnv),
      (sendCommand st cmd w env).2.msgID = nextID st.msgID :=
  claim_C2_nextID_monotone 2 5 [counterAfter 1, counterAfter 2]
    (by norm_num) (by norm_num)
    (by
      intro k hk
      rcases List.mem_cons.mp hk with hk | hk
      · exact ⟨1, by norm_num, by norm_num, hk⟩
      · rcases List.mem_cons.mp hk with hk | hk
        · exact ⟨2, by norm_num, by norm_num, hk⟩
        · simp at hk)

/-- Claim C9: on every return path of `sendCommand` the pending entry
registered for this call's ID has been removed when the function
returns, and entries for all other IDs are untouched. -/
theorem claim_C9_pending_cleanup (st : WsState) (cmd : Json) (w : Nat)
    (env : SendEnv) :
    lookupW (sendCommand st cmd w env).2.pending (nextID st.msgID) = none ∧
    ∀ k, k ≠ nextID st.msgID →
      lookupW (sendCommand st cmd w env).2.pending k = lookupW st.pending k := by
  rw [sendCommand_state]
  constructor
  · exact lookupW_eraseW_self _ _
  · intro k hk
    rw [lookupW_eraseW_ne _ _ _ hk]
    simp only [lookupW]
    rw [if_neg (fun he => hk he.symm)]

/-- Claim C9 witness: the theorem at a concrete state, command and
environment. -/
theorem claim_C9_pending_cleanup_witness :
    lookupW (sendCommand ⟨0, [(5, 55)]⟩ (Json.obj []) 7
      ⟨none, .sessionClosed⟩).2.pending (nextID 0) = none ∧
    lookupW (sendCommand ⟨0, [(5, 55)]⟩ (Json.obj []) 7
      ⟨none, .sessionClosed⟩).2.pending 5 = lookupW [(5, 55)] 5 :=
  ⟨(claim_C9_pending_cleanup ⟨0, [(5, 55)]⟩ (Json.obj []) 7
      ⟨none, .sessionClosed⟩).1,
   (claim_C9_pending_cleanup ⟨0, [(5, 55)]⟩ (Json.obj []) 7
      ⟨none, .sessionClosed⟩).2 5 (by decide)⟩


/-- Claim C1: the demultiplexer routes each inbound message with nonzero
id to the waiter registered for exactly that id and to no other, removes
the entry on delivery (so each id is delivered at most once and is absent
from the registry afterwards), and — whatever the arrival order — a
registered caller receives exactly the response carrying its own id. -/
theorem claim_C1_correlation (p : List (Int × Nat)) (msgs : List WsResponse) :
    (∀ d ∈ (readerRun p msgs).1, lookupW p d.2.id = some d.1) ∧
    ((readerRun p msgs).1.map (fun d => d.2.id)).Nodup ∧
    (∀ d ∈ (readerRun p msgs).1,
      lookupW (readerRun p msgs).2 d.2.id = none) ∧
    (∀ (id : Int) (w : Nat) (r : WsResponse),
      lookupW p id = some w → r ∈ msgs → r.id = id → id ≠ 0 →
      (msgs.map WsResponse.id).Nodup → (w, r) ∈ (readerRun p msgs).1) :=
  ⟨readerRun_sound msgs p, readerRun_ids_nodup msgs p,
   readerRun_delivered_removed msgs p,
   fun id w r hreg hmem hid h0 hnd =>
     readerRun_complete msgs p id w r hreg hmem hid h0 hnd⟩

/-- Claim C1 witness: with waiters registered for ids 1 and 2 and the
responses arriving in the opposite order, the waiter registered for id 1
receives the response with id 1. -/
theorem claim_C1_correlation_witness :
    (10, (⟨1, "result", true, Json.null, none, "", ""⟩ : WsResponse)) ∈
      (readerRun [(1, 10), (2, 20)]
        [⟨2, "result", true, Json.null, none, "", ""⟩,
         ⟨1, "result", true, Json.null, none, "", ""⟩]).1 :=
  (claim_C1_correlation [(1, 10), (2, 20)]
    [⟨2, "result", true, Json.null, none, "", ""⟩,
     ⟨1, "result", true, Json.null, none, "", ""⟩]).2.2.2 1 10
    ⟨1, "result", true, Json.null, none, "", ""⟩
    (by decide)
    (List.mem_cons_of_mem _ (List.mem_cons_self _ _))
    rfl (by decide) (by decide)

/-- Claim C5 counterexample: a response with `success` false and no
structured error whose `type` is not `result` (here `event`) makes the
call succeed, where the claim requires the generic "command failed"
error: the code additionally guards on `resp.Type == "result"`. -/
theorem claim_C5_counterexample :
    (⟨7, "event", false, Json.null, none, "", ""⟩ : WsResponse).success = false ∧
    (⟨7, "event", false, Json.null, none, "", ""⟩ : WsResponse).error = none ∧
    (sendCommand ⟨0, []⟩ (Json.obj []) 3
      ⟨none, .response ⟨7, "event", false, Json.null, none, "", ""⟩⟩).1.result =
      .ok ⟨7, "event", false, Json.null, none, "", ""⟩ ∧
    (sendCommand ⟨0, []⟩ (Json.obj []) 3
      ⟨none, .response ⟨7, "event", false, Json.null, none, "", ""⟩⟩).1.result ≠
      .failure "command failed" :=
  ⟨rfl, rfl, rfl, fun h => by
    rw [show (sendCommand ⟨0, []⟩ (Json.obj []) 3
      ⟨none, .response ⟨7, "event", false, Json.null, none, "", ""⟩⟩).1.result =
      .ok ⟨7, "event", false, Json.null, none, "", ""⟩ from rfl] at h
    exact CallResult.noConfusion h⟩

/-- Claim C5 (amended): when the waiter resolves with a response, a
structured error makes the call fail with exactly that error's code and
message; `success` false with no structured error makes it fail with the
generic "command failed" only when the response's type is `result`;
otherwise the call succeeds and returns the response (with its payload). -/
theorem claim_C5_response_mapping (st : WsState) (cmd : Json)
    (fs : List (String × Json)) (w : Nat) (r : WsResponse)
    (hobj : jsonObjFields cmd = some fs) :
    (∀ e, r.error = some e →
      (sendCommand st cmd w ⟨none, .response r⟩).1.result =
        .wsError e.code e.message) ∧
    (r.error = none → r.success = false → r.type = "result" →
      (sendCommand st cmd w ⟨none, .response r⟩).1.result =
        .failure "command failed") ∧
    (r.error = none → (r.success = true ∨ r.type ≠ "result") →
      (sendCommand st cmd w ⟨none, .response r⟩).1.result = .ok r) := by
  rw [show (sendCommand st cmd w ⟨none, .response r⟩).1.result =
      resolveResponse r from sendCommand_wait st cmd fs w (.response r) hobj]
  refine ⟨?_, ?_, ?_⟩
  · intro e he
    simp [resolveResponse, he]
  · intro he hs ht
    simp [resolveResponse, he, hs, ht]
  · intro he hcase
    rcases hcase with hs | ht
    · simp [resolveResponse, he, hs]
    · simp [resolveResponse, he, ht]

/-- Claim C5 witness: the amended theorem at a concrete structured-error
response. -/
theorem claim_C5_response_mapping_witness :
    (sendCommand ⟨0, []⟩ (Json.obj []) 3
      ⟨none, .response ⟨7, "result", false, Json.null,
        some ⟨"not_found", "entity missing"⟩, "", ""⟩⟩).1.result =
      .wsError "not_found" "entity missing" :=
  (claim_C5_response_mapping ⟨0, []⟩ (Json.obj []) [] 3
    ⟨7, "result", false, Json.null, some ⟨"not_found", "entity missing"⟩, "", ""⟩
    rfl).1 ⟨"not_found", "entity missing"⟩ rfl

/-- Claim C6: when the wait is resolved by the caller's context, the call
returns exactly the context's own error, its own pending entry is gone
from the registry, and a later response carrying this call's id is
dropped by the demultiplexer (no waiter found, registry unchanged). -/
theorem claim_C6_ctx_cancel (st : WsState) (cmd : Json)
    (fs : List (String × Json)) (w : Nat) (ce : String)
    (hobj : jsonObjFields cmd = some fs) :
    (sendCommand st cmd w ⟨none, .ctxDone ce⟩).1.result = .ctxErr ce ∧
    lookupW (sendCommand st cmd w ⟨none, .ctxDone ce⟩).2.pending
      (nextID st.msgID) = none ∧
    ∀ r : WsResponse, r.id = nextID st.msgID →
      dispatch (sendCommand st cmd w ⟨none, .ctxDone ce⟩).2.pending r =
        (none, (sendCommand st cmd w ⟨none, .ctxDone ce⟩).2.pending) := by
  refine ⟨sendCommand_wait st cmd fs w (.ctxDone ce) hobj, ?_, ?_⟩
  · rw [sendCommand_state]
    exact lookupW_eraseW_self _ _
  · intro r hr
    apply dispatch_drop
    rw [hr, sendCommand_state]
    exact lookupW_eraseW_self _ _

/-- Claim C6 witness: the theorem at a concrete cancelled call, showing
the context's error surfaces and a late response for its id is dropped. -/
theorem claim_C6_ctx_cancel_witness :
    (sendCommand ⟨0, []⟩ (Json.obj []) 3
      ⟨none, .ctxDone "context canceled"⟩).1.result =
      .ctxErr "context canceled" ∧
    dispatch (sendCommand ⟨0, []⟩ (Json.obj []) 3
      ⟨none, .ctxDone "context canceled"⟩).2.pending
      ⟨1, "result", true, Json.null, none, "", ""⟩ =
      (none, (sendCommand ⟨0, []⟩ (Json.obj []) 3
        ⟨none, .ctxDone "context canceled"⟩).2.pending) :=
  ⟨(claim_C6_ctx_cancel ⟨0, []⟩ (Json.obj []) [] 3 "context canceled" rfl).1,
   (claim_C6_ctx_cancel ⟨0, []⟩ (Json.obj []) [] 3 "context canceled" rfl).2.2
     ⟨1, "result", true, Json.null, none, "", ""⟩ (by decide)⟩


/-- Claim C8: `sendCommand` never mutates the caller's command object —
the id is injected into a fresh map built by the marshal/unmarshal round
trip, only that copy is ever written, and the caller's object is the same
after the call on every path. -/
theorem claim_C8_no_mutation (st : WsState) (cmd : Json) (w : Nat)
    (env : SendEnv) :
    (sendCommand st cmd w env).1.cmdAfter = cmd ∧
    ∀ m ∈ (sendCommand st cmd w env).1.wrote, ∃ fs,
      jsonObjFields cmd = some fs ∧
      m = Json.obj (setField fs "id" (.num (nextID st.msgID))) := by
  unfold sendCommand
  cases hm : unmarshalMap cmd with
  | err =>
    refine ⟨rfl, ?_⟩
    intro m hmem
    simp at hmem
  | nilMap =>
    refine ⟨rfl, ?_⟩
    intro m hmem
    simp at hmem
  | obj fs =>
    have hobj : jsonObjFields cmd = some fs := by
      cases cmd <;> simp [unmarshalMap] at hm <;> simp [jsonObjFields, hm]
    cases henv : env.writeErr with
    | some e =>
      refine ⟨rfl, ?_⟩
      intro m hmem
      simp at hmem
    | none =>
      refine ⟨rfl, ?_⟩
      intro m hmem
      simp at hmem
      exact ⟨fs, hobj, hmem⟩

/-- Claim C8 witness: the theorem at a concrete command sent without
error; the single wire message is the copy carrying the injected id. -/
theorem claim_C8_no_mutation_witness :
    (sendCommand ⟨0, []⟩ (Json.obj [("type", Json.str "ping")]) 3
      ⟨none, .sessionClosed⟩).1.cmdAfter =
      Json.obj [("type", Json.str "ping")] ∧
    Json.obj (setField [("type", Json.str "ping")] "id" (.num (nextID 0))) =
      Json.obj (setField [("type", Json.str "ping")] "id" (.num (nextID 0))) :=
  ⟨(claim_C8_no_mutation ⟨0, []⟩ (Json.obj [("type", Json.str "ping")]) 3
      ⟨none, .sessionClosed⟩).1,
   ((claim_C8_no_mutation ⟨0, []⟩ (Json.obj [("type", Json.str "ping")]) 3
      ⟨none, .sessionClosed⟩).2
     (Json.obj (setField [("type", Json.str "ping")] "id" (.num (nextID 0))))
     (by simp [sendCommand, unmarshalMap])).choose_spec.2 ▸ rfl⟩

/-- Claim C10 counterexample: a command marshalling to JSON `null` does
not serialize to a JSON object, yet `sendCommand` does not return an
error for it: `json.Unmarshal` of `null` into `map[string]any` succeeds
leaving the map `nil`, and `cmdMap["id"] = id` then panics — though still
before anything is written to the connection. -/
theorem claim_C10_counterexample :
    jsonObjFields Json.null = none ∧
    (sendCommand ⟨0, []⟩ Json.null 3 ⟨none, .sessionClosed⟩).1.result =
      .panicked "assignment to entry in nil map" ∧
    (sendCommand ⟨0, []⟩ Json.null 3 ⟨none, .sessionClosed⟩).1.result ≠
      .failure "unmarshal command" ∧
    (sendCommand ⟨0, []⟩ Json.null 3 ⟨none, .sessionClosed⟩).1.wrote = [] :=
  ⟨rfl, rfl, fun h => by
    rw [show (sendCommand ⟨0, []⟩ Json.null 3
        ⟨none, .sessionClosed⟩).1.result =
      .panicked "assignment to entry in nil map" from rfl] at h
    exact CallResult.noConfusion h, rfl⟩

/-- Claim C10 (amended): a caller-supplied `id` field is silently
overwritten by the registry-assigned id in the message actually written;
a command serializing to a JSON value that is neither an object nor
`null` (e.g., an array or scalar) makes `sendCommand` return an error
before anything is written; a command serializing to JSON `null` makes
`sendCommand` panic on the nil-map assignment, likewise before anything
is written. -/
theorem claim_C10_id_overwrite_nonobject (st : WsState) (cmd : Json)
    (w : Nat) (env : SendEnv) :
    (∀ fs v, jsonObjFields cmd = some fs → ("id", v) ∈ fs →
      env.writeErr = none →
      (sendCommand st cmd w env).1.wrote =
        [Json.obj (setField fs "id" (.num (nextID st.msgID)))] ∧
      fieldVal (setField fs "id" (.num (nextID st.msgID))) "id" =
        some (.num (nextID st.msgID))) ∧
    (unmarshalMap cmd = .err →
      (sendCommand st cmd w env).1.result = .failure "unmarshal command" ∧
      (sendCommand st cmd w env).1.wrote = []) ∧
    (cmd = Json.null →
      (sendCommand st cmd w env).1.result =
        .panicked "assignment to entry in nil map" ∧
      (sendCommand st cmd w env).1.wrote = []) := by
  refine ⟨?_, ?_, ?_⟩
  · intro fs v hobj hmem hwr
    constructor
    · unfold sendCommand
      rw [unmarshalMap_of_fields cmd fs hobj, hwr]
    · simp [setField, fieldVal]
  · intro hobj
    unfold sendCommand
    rw [hobj]
    exact ⟨rfl, rfl⟩
  · intro hnull
    subst hnull
    exact ⟨rfl, rfl⟩

/-- Claim C10 witness: a command carrying its own `id` field has it
replaced on the wire; an array command fails with nothing written; a
`null` command panics with nothing written. -/
theorem claim_C10_id_overwrite_nonobject_witness :
    ((sendCommand ⟨0, []⟩ (Json.obj [("id", Json.num 999)]) 3
      ⟨none, .sessionClosed⟩).1.wrote =
      [Json.obj (setField [("id", Json.num 999)] "id" (.num (nextID 0)))] ∧
     fieldVal (setField [("id", Json.num 999)] "id" (.num (nextID 0))) "id" =
      some (.num (nextID 0))) ∧
    ((sendCommand ⟨0, []⟩ (Json.arr [Json.num 1]) 3
      ⟨none, .sessionClosed⟩).1.result = .failure "unmarshal command" ∧
     (sendCommand ⟨0, []⟩ (Json.arr [Json.num 1]) 3
      ⟨none, .sessionClosed⟩).1.wrote = []) ∧
    ((sendCommand ⟨0, []⟩ Json.null 3
      ⟨none, .sessionClosed⟩).1.result =
        .panicked "assignment to entry in nil map" ∧
     (sendCommand ⟨0, []⟩ Json.null 3
      ⟨none, .sessionClosed⟩).1.wrote = []) :=
  ⟨(claim_C10_id_overwrite_nonobject ⟨0, []⟩ (Json.obj [("id", Json.num 999)])
      3 ⟨none, .sessionClosed⟩).1 [("id", Json.num 999)] (Json.num 999)
      rfl (List.mem_cons_self _ _) rfl,
   (claim_C10_id_overwrite_nonobject ⟨0, []⟩ (Json.arr [Json.num 1])
      3 ⟨none, .sessionClosed⟩).2.1 rfl,
   (claim_C10_id_overwrite_nonobject ⟨0, []⟩ Json.null
      3 ⟨none, .sessionClosed⟩).2.2 rfl⟩

/-- Claim C3: the handshake maps its inputs to outcomes as the three-step
machine specifies — a first message other than `auth_required` fails the
attempt; otherwise the credential message is sent and the second message
decides: `auth_ok` succeeds, `auth_invalid` fails carrying the server
message (or "invalid authentication" when absent), anything else fails
with "unexpected auth response: <type>"; and on any handshake failure
`connectWebSocket` closes the fresh connection, returns the error, and
retains no session and starts no reader. -/
theorem claim_C3_auth_handshake (token : String) :
    (∀ (m : WsResponse) (we : Option String) (r2 : ReadResult),
      m.type ≠ "auth_required" →
      (authenticate token (.msg m) we r2).1 =
        .error ("expected auth_required, got " ++ m.type)) ∧
    (∀ m m2 : WsResponse, m.type = "auth_required" → m2.type = "auth_ok" →
      (authenticate token (.msg m) none (.msg m2)).1 = .ok () ∧
      (authenticate token (.msg m) none (.msg m2)).2 = [⟨"auth", token⟩]) ∧
    (∀ m m2 : WsResponse, m.type = "auth_required" →
      m2.type = "auth_invalid" →
      (authenticate token (.msg m) none (.msg m2)).1 =
        .error ("auth failed: " ++
          (if m2.message = "" then "invalid authentication"
           else m2.message))) ∧
    (∀ m m2 : WsResponse, m.type = "auth_required" →
      m2.type ≠ "auth_ok" → m2.type ≠ "auth_invalid" →
      (authenticate token (.msg m) none (.msg m2)).1 =
        .error ("unexpected auth response: " ++ m2.type)) ∧
    (∀ (st : ClientState) (env : ConnectEnv) (e url : String),
      st.ws = none → buildWebSocketURL st.baseURL = .ok url →
      env.dialErr = none →
      (authenticate token env.read1 env.writeAuthErr env.read2).1 =
        .error e →
      connectWebSocket st token env =
        (⟨.error ("websocket auth: " ++ e), true, true, false⟩, st)) := by
  refine ⟨?_, ?_, ?_, ?_, ?_⟩
  · intro m we r2 h
    simp [authenticate, h]
  · intro m m2 h1 h2
    have hne : m2.type ≠ "auth_invalid" := by rw [h2]; decide
    simp [authenticate, h1, h2]
  · intro m m2 h1 h2
    have hne : m2.type ≠ "auth_ok" := by rw [h2]; decide
    simp [authenticate, h1, h2, hne]
  · intro m m2 h1 h2 h3
    simp [authenticate, h1, h2, h3]
  · intro st env e url hws hurl hdial hauth
    unfold connectWebSocket
    rw [hws]
    unfold connectFresh
    rw [hurl, hdial, hauth]

/-- Claim C3 witness: at a concrete token and message sequence ending in
`auth_invalid` with no server message, the connect attempt fails with the
wrapped generic message, closes the connection, starts no reader and
stores no session. -/
theorem claim_C3_auth_handshake_witness :
    connectWebSocket
      ⟨none, ⟨"http", "localhost:8123", "/"⟩, 0⟩ "tok"
      ⟨none, .msg ⟨0, "auth_required", false, Json.null, none, "", ""⟩, none,
       .msg ⟨0, "auth_invalid", false, Json.null, none, "", ""⟩⟩ =
      (⟨.error ("websocket auth: " ++
          ("auth failed: " ++ "invalid authentication")), true, true, false⟩,
       ⟨none, ⟨"http", "localhost:8123", "/"⟩, 0⟩) :=
  (claim_C3_auth_handshake "tok").2.2.2.2
    ⟨none, ⟨"http", "localhost:8123", "/"⟩, 0⟩
    ⟨none, .msg ⟨0, "auth_required", false, Json.null, none, "", ""⟩, none,
     .msg ⟨0, "auth_invalid", false, Json.null, none, "", ""⟩⟩
    ("auth failed: " ++ "invalid authentication")
    "ws://localhost:8123/api/websocket"
    rfl (by decide) rfl
    ((claim_C3_auth_handshake "tok").2.2.1
      ⟨0, "auth_required", false, Json.null, none, "", ""⟩
      ⟨0, "auth_invalid", false, Json.null, none, "", ""⟩ rfl rfl)

/-- Claim C7 counterexample: when the reader loop terminates, the client's
session reference is not cleared — it still points at the (now closed)
session; only the session's done signal changes. -/
theorem claim_C7_counterexample :
    (onReaderExit ⟨some ⟨0, false⟩, ⟨"http", "localhost:8123", ""⟩, 1⟩).ws ≠
      none ∧
    (onReaderExit ⟨some ⟨0, false⟩, ⟨"http", "localhost:8123", ""⟩, 1⟩).ws =
      some ⟨0, true⟩ := by
  constructor
  · intro h
    simp [onReaderExit] at h
  · rfl

/-- Claim C7 (amended): when the reader loop terminates, the session's
done signal is closed (the session reference itself is not cleared);
every call whose wait resolves through that closed signal fails with
"websocket connection closed" rather than blocking; and the next call's
connect path detects the dead session and establishes a fresh one instead
of reusing it. -/
theorem claim_C7_connection_lost (st : ClientState) (s : Session)
    (token : String) (env : ConnectEnv) (url : String)
    (hws : st.ws = some s) (hsid : s.sid < st.nextSid)
    (hurl : buildWebSocketURL st.baseURL = .ok url)
    (hdial : env.dialErr = none)
    (hauth : (authenticate token env.read1 env.writeAuthErr env.read2).1 =
      .ok ()) :
    (onReaderExit st).ws = some ⟨s.sid, true⟩ ∧
    (∀ (st2 : WsState) (cmd : Json) (fs : List (String × Json)) (w : Nat),
      jsonObjFields cmd = some fs →
      (sendCommand st2 cmd w ⟨none, .sessionClosed⟩).1.result =
        .failure "websocket connection closed") ∧
    (connectWebSocket (onReaderExit st) token env).1.result = .ok () ∧
    (connectWebSocket (onReaderExit st) token env).1.dialed = true ∧
    (connectWebSocket (onReaderExit st) token env).2.ws =
      some ⟨st.nextSid, false⟩ ∧
    (connectWebSocket (onReaderExit st) token env).2.ws ≠ st.ws := by
  have hexit : (onReaderExit st).ws = some ⟨s.sid, true⟩ := by
    unfold onReaderExit
    rw [hws]
  have hconn : connectWebSocket (onReaderExit st) token env =
      (⟨.ok (), true, false, true⟩,
       { ws := some ⟨(onReaderExit st).nextSid, false⟩,
         baseURL := (onReaderExit st).baseURL,
         nextSid := (onReaderExit st).nextSid + 1 }) := by
    unfold connectWebSocket
    rw [hexit]
    simp only [if_pos rfl]
    unfold connectFresh
    have hb : (onReaderExit st).baseURL = st.baseURL := by
      unfold onReaderExit
      rw [hws]
    rw [hb, hurl, hdial, hauth]
    simp
  have hsidB : (onReaderExit st).nextSid = st.nextSid := by
    unfold onReaderExit
    rw [hws]
  refine ⟨hexit, ?_, ?_, ?_, ?_, ?_⟩
  · intro st2 cmd fs w hobj
    exact sendCommand_wait st2 cmd fs w .sessionClosed hobj
  · rw [hconn]
  · rw [hconn]
  · rw [hconn, hsidB]
  · rw [hconn, hsidB, hws]
    intro h
    have := Option.some.inj h
    have hne : st.nextSid ≠ s.sid := Nat.ne_of_gt hsid
    exact hne (congrArg Session.sid this)

/-- Claim C7 witness: the amended theorem at a concrete dead session and
a successful reconnect environment. -/
theorem claim_C7_connection_lost_witness :
    (onReaderExit ⟨some ⟨0, false⟩, ⟨"http", "localhost:8123", "/"⟩, 1⟩).ws =
      some ⟨0, true⟩ ∧
    (connectWebSocket
      (onReaderExit ⟨some ⟨0, false⟩, ⟨"http", "localhost:8123", "/"⟩, 1⟩)
      "tok"
      ⟨none, .msg ⟨0, "auth_required", false, Json.null, none, "", ""⟩, none,
       .msg ⟨0, "auth_ok", false, Json.null, none, "", ""⟩⟩).2.ws =
      some ⟨1, false⟩ :=
  ⟨(claim_C7_connection_lost
      ⟨some ⟨0, false⟩, ⟨"http", "localhost:8123", "/"⟩, 1⟩ ⟨0, false⟩ "tok"
      ⟨none, .msg ⟨0, "auth_required", false, Json.null, none, "", ""⟩, none,
       .msg ⟨0, "auth_ok", false, Json.null, none, "", ""⟩⟩
      "ws://localhost:8123/api/websocket"
      rfl (by decide) (by decide) rfl rfl).1,
   (claim_C7_connection_lost
      ⟨some ⟨0, false⟩, ⟨"http", "localhost:8123", "/"⟩, 1⟩ ⟨0, false⟩ "tok"
      ⟨none, .msg ⟨0, "auth_required", false, Json.null, none, "", ""⟩, none,
       .msg ⟨0, "auth_ok", false, Json.null, none, "", ""⟩⟩
      "ws://localhost:8123/api/websocket"
      rfl (by decide) (by decide) rfl rfl).2.2.2.2.1⟩

end Hago
